import Mathlib

/-!
Verification of the thumbnail generation and caching engine of the Cura
media manager (src-tauri/src/thumbnail.rs, plus the video command layer in
src-tauri/src/lib.rs).  The Rust code is shallowly embedded: pure helpers
become Lean functions, the filesystem becomes an explicit state record,
and the external libraries (the image crate, the exif crate, the JPEG
encoder) become an oracle record of abstract functions.  The sha2 crate
is embedded as a full executable SHA-256 over byte lists, since the cache
key claims depend on its actual output format.
-/

set_option maxRecDepth 100000
set_option linter.unreachableTactic false
set_option linter.unusedTactic false

namespace Cura

/-! ## SHA-256 (embedding of the sha2 crate used by compute_checksum)

Bytes are naturals; every arithmetic step reduces modulo 2 ^ 32 exactly as
the 32-bit machine words do. -/

/-- Right rotation of a 32-bit word. -/
def rotr (n x : Nat) : Nat := ((x >>> n) ||| (x <<< (32 - n))) % 2 ^ 32

/-- SHA-256 big sigma 0. -/
def bSig0 (x : Nat) : Nat := rotr 2 x ^^^ rotr 13 x ^^^ rotr 22 x

/-- SHA-256 big sigma 1. -/
def bSig1 (x : Nat) : Nat := rotr 6 x ^^^ rotr 11 x ^^^ rotr 25 x

/-- SHA-256 small sigma 0. -/
def sSig0 (x : Nat) : Nat := rotr 7 x ^^^ rotr 18 x ^^^ (x >>> 3)

/-- SHA-256 small sigma 1. -/
def sSig1 (x : Nat) : Nat := rotr 17 x ^^^ rotr 19 x ^^^ (x >>> 10)

/-- SHA-256 choice function; complement is taken inside 32 bits. -/
def shaCh (x y z : Nat) : Nat := (x &&& y) ^^^ ((x ^^^ 0xffffffff) &&& z)

/-- SHA-256 majority function. -/
def shaMaj (x y z : Nat) : Nat := (x &&& y) ^^^ (x &&& z) ^^^ (y &&& z)

/-- The 64 SHA-256 round constants of FIPS 180-4, written in decimal. -/
def K256 : List Nat :=
  [1116352408, 1899447441, 3049323471, 3921009573, 961987163, 1508970993,
   2453635748, 2870763221, 3624381080, 310598401, 607225278, 1426881987,
   1925078388, 2162078206, 2614888103, 3248222580, 3835390401, 4022224774,
   264347078, 604807628, 770255983, 1249150122, 1555081692, 1996064986,
   2554220882, 2821834349, 2952996808, 3210313671, 3336571891, 3584528711,
   113926993, 338241895, 666307205, 773529912, 1294757372, 1396182291,
   1695183700, 1986661051, 2177026350, 2456956037, 2730485921, 2820302411,
   3259730800, 3345764771, 3516065817, 3600352804, 4094571909, 275423344,
   430227734, 506948616, 659060556, 883997877, 958139571, 1322822218,
   1537002063, 1747873779, 1955562222, 2024104815, 2227730452, 2361852424,
   2428436474, 2756734187, 3204031479, 3329325298]

/-- Intermediate SHA-256 hash state: eight 32-bit words. -/
structure Hash8 where
  a : Nat
  b : Nat
  c : Nat
  d : Nat
  e : Nat
  f : Nat
  g : Nat
  h : Nat
deriving DecidableEq

/-- Initial SHA-256 hash value of FIPS 180-4, written in decimal. -/
def initH : Hash8 :=
  ⟨1779033703, 3144134277, 1013904242, 2773480762,
   1359893119, 2600822924, 528734635, 1541459225⟩

/-- One SHA-256 compression round for round constant k and schedule word w. -/
def shaRound (s : Hash8) (k w : Nat) : Hash8 :=
  let t1 := (s.h + bSig1 s.e + shaCh s.e s.f s.g + k + w) % 2 ^ 32
  let t2 := (bSig0 s.a + shaMaj s.a s.b s.c) % 2 ^ 32
  ⟨(t1 + t2) % 2 ^ 32, s.a, s.b, s.c, (s.d + t1) % 2 ^ 32, s.e, s.f, s.g⟩

/-- Big-endian 32-bit word from four bytes. -/
def word4 (a b c d : Nat) : Nat := ((a <<< 24) + (b <<< 16) + (c <<< 8) + d) % 2 ^ 32

/-- Split a list of bytes into big-endian 32-bit words; fuel-driven so it
reduces in the kernel. -/
def words4 : Nat → List Nat → List Nat
  | 0, _ => []
  | _, [] => []
  | fuel + 1, a :: b :: c :: d :: rest => word4 a b c d :: words4 fuel rest
  | _ + 1, [a] => [word4 a 0 0 0]
  | _ + 1, [a, b] => [word4 a b 0 0]
  | _ + 1, [a, b, c] => [word4 a b c 0]

/-- Extend the 16 message words to the 64-entry SHA-256 schedule. -/
def extendSchedule (ws : List Nat) : List Nat :=
  (List.range 48).foldl
    (fun acc _ =>
      let n := acc.length
      acc ++ [(sSig1 (acc.getD (n - 2) 0) + acc.getD (n - 7) 0 +
               sSig0 (acc.getD (n - 15) 0) + acc.getD (n - 16) 0) % 2 ^ 32])
    ws

/-- Compress one 64-byte block into the running hash state. -/
def compressBlock (s : Hash8) (block : List Nat) : Hash8 :=
  let ws := extendSchedule (words4 block.length block)
  let t := (K256.zip ws).foldl (fun st kw => shaRound st kw.1 kw.2) s
  ⟨(s.a + t.a) % 2 ^ 32, (s.b + t.b) % 2 ^ 32, (s.c + t.c) % 2 ^ 32,
   (s.d + t.d) % 2 ^ 32, (s.e + t.e) % 2 ^ 32, (s.f + t.f) % 2 ^ 32,
   (s.g + t.g) % 2 ^ 32, (s.h + t.h) % 2 ^ 32⟩

/-- Split a byte list into 64-byte blocks; fuel-driven so it reduces in the
kernel (fuel at least the length of the list suffices). -/
def chunks64 : Nat → List Nat → List (List Nat)
  | 0, _ => []
  | _, [] => []
  | fuel + 1, l => l.take 64 :: chunks64 fuel (l.drop 64)

/-- Big-endian 8-byte encoding of a length-in-bits value. -/
def lenBytes (n : Nat) : List Nat :=
  [(n >>> 56) % 256, (n >>> 48) % 256, (n >>> 40) % 256, (n >>> 32) % 256,
   (n >>> 24) % 256, (n >>> 16) % 256, (n >>> 8) % 256, n % 256]

/-- SHA-256 padding for a message of byte length len. -/
def shaPad (len : Nat) : List Nat :=
  0x80 :: List.replicate ((119 - len % 64) % 64) 0 ++ lenBytes (8 * len)

/-- Big-endian bytes of a 32-bit word. -/
def wordBytes (w : Nat) : List Nat :=
  [(w >>> 24) % 256, (w >>> 16) % 256, (w >>> 8) % 256, w % 256]

/-- SHA-256 digest of a byte list: 32 bytes. -/
def sha256 (msg : List Nat) : List Nat :=
  let padded := msg ++ shaPad msg.length
  let final := (chunks64 padded.length padded).foldl compressBlock initH
  wordBytes final.a ++ wordBytes final.b ++ wordBytes final.c ++
  wordBytes final.d ++ wordBytes final.e ++ wordBytes final.f ++
  wordBytes final.g ++ wordBytes final.h

/-- Lowercase hexadecimal digit for a value below 16. -/
def hexDigit (n : Nat) : Char :=
  Char.ofNat (if n < 10 then 48 + n else 87 + n)

/-- Two lowercase hexadecimal characters of one byte. -/
def byteHexChars (b : Nat) : List Char := [hexDigit (b / 16), hexDigit (b % 16)]

/-- The characters of the digest string formatted by compute_checksum
(thumbnail.rs line 96): each digest byte as two lowercase hex digits. -/
def checksumChars (data : List Nat) : List Char :=
  (sha256 data).foldr (fun b acc => byteHexChars b ++ acc) []

/-- The digest string returned by compute_checksum for file content data. -/
def checksumString (data : List Nat) : String := ⟨checksumChars data⟩

/-! ## Data model: images, files, the filesystem, the library oracle -/

/-- Abstract decoded raster image (the image crate DynamicImage):
dimensions plus a pixel lookup. -/
structure Image where
  width : Nat
  height : Nat
  pix : Nat → Nat → Nat

/-- Horizontal flip (image crate fliph). -/
def Image.fliph (img : Image) : Image :=
  ⟨img.width, img.height, fun x y => img.pix (img.width - 1 - x) y⟩

/-- Vertical flip (image crate flipv). -/
def Image.flipv (img : Image) : Image :=
  ⟨img.width, img.height, fun x y => img.pix x (img.height - 1 - y)⟩

/-- Rotation by 180 degrees (image crate rotate180). -/
def Image.rotate180 (img : Image) : Image :=
  ⟨img.width, img.height, fun x y => img.pix (img.width - 1 - x) (img.height - 1 - y)⟩

/-- Clockwise rotation by 90 degrees (image crate rotate90); swaps the
dimensions. -/
def Image.rotate90 (img : Image) : Image :=
  ⟨img.height, img.width, fun x y => img.pix y (img.height - 1 - x)⟩

/-- Clockwise rotation by 270 degrees (image crate rotate270); swaps the
dimensions. -/
def Image.rotate270 (img : Image) : Image :=
  ⟨img.height, img.width, fun x y => img.pix (img.width - 1 - y) x⟩

/-- Content of a file on disk: raw bytes, or the JPEG encoding of an image
as produced by save_with_format(.., ImageFormat::Jpeg). -/
inductive MediaData where
  | bytes (bs : List Nat)
  | jpegOf (img : Image)

/-- A regular file: content plus modification time. -/
structure File where
  data : MediaData
  mtime : Nat

/-- Filesystem state: regular files by path, directories by path, and the
current time used to stamp new writes. -/
@[ext]
structure FS where
  files : String → Option File
  dirs : String → Bool
  clock : Nat

/-- Value of an EXIF field, as far as apply_orientation inspects it: a
vector of shorts, or any other value kind. -/
inductive ExifValue where
  | short (v : List Nat)
  | other

/-- Behaviour of the external libraries used by thumbnail.rs: the image
crate decoder, the exif crate (outer none: the container cannot be opened
or parsed; inner Option: presence of the orientation field), the Lanczos3
resampler, and the JPEG encoder. -/
structure Oracle where
  decode : List Nat → Except String Image
  exifOf : List Nat → Option (Option ExifValue)
  resample : Image → Nat → Nat → Nat → Nat → Nat
  encodeJpeg : Image → List Nat

/-- Bytes obtained by fs::read on a file content. -/
def Oracle.readBytes (o : Oracle) : MediaData → List Nat
  | .bytes bs => bs
  | .jpegOf img => o.encodeJpeg img

/-- Path.exists: true for a regular file or a directory. -/
def FS.pathExists (fs : FS) (p : String) : Bool := (fs.files p).isSome || fs.dirs p

/-- Result of fs::metadata(p).modified(): the mtime of the regular file at
p when it is readable. -/
def FS.mtimeOf (fs : FS) (p : String) : Option Nat := (fs.files p).map File.mtime

/-- fs::create_dir_all: mark the directory as present. -/
def FS.mkdir (fs : FS) (d : String) : FS :=
  { fs with dirs := fun q => if q = d then true else fs.dirs q }

/-- Write a file at path p, stamped with the current clock. -/
def FS.write (fs : FS) (p : String) (d : MediaData) : FS :=
  { fs with files := fun q => if q = p then some ⟨d, fs.clock⟩ else fs.files q }

/-- Paths to generated thumbnails (thumbnail.rs ThumbnailPaths). -/
structure ThumbnailPaths where
  small : String
  medium : String
deriving DecidableEq

/-- Small thumbnail width (thumbnail.rs line 8). -/
def THUMBNAIL_SMALL_WIDTH : Nat := 150

/-- Medium thumbnail width (thumbnail.rs line 9). -/
def THUMBNAIL_MEDIUM_WIDTH : Nat := 600

/-! ## Embedded operations of thumbnail.rs -/

/-- Embedding of compute_checksum (thumbnail.rs lines 88-97) applied to the
fs::read result of the file at the given path: hash the full content and
format it as lowercase hex.  The read of a missing or unreadable file is
the error branch. -/
def compute_checksum (o : Oracle) : Option File → Except String String
  | none => .error "Failed to read file for checksum: unreadable"
  | some f => .ok (checksumString (o.readBytes f.data))

/-- Byte sizes of the filesystem read operations compute_checksum performs
on a file of the given content: a single fs::read of the entire file
(thumbnail.rs line 89). -/
def compute_checksum_read_sizes (content : List Nat) : List Nat := [content.length]

/-- Embedding of should_regenerate_thumbnails (thumbnail.rs lines 100-128).
The two mtime arguments are the results of fs::metadata(..).modified() for
the two cached files (none when either step fails). -/
def should_regenerate_thumbnails (small_exists medium_exists : Bool)
    (small_mtime medium_mtime : Option Nat) (source_mtime : Nat) : Bool :=
  if !small_exists || !medium_exists then true
  else if (match small_mtime with
           | some m => decide (source_mtime > m)
           | none => false) then true
  else if (match medium_mtime with
           | some m => decide (source_mtime > m)
           | none => false) then true
  else false

/-- File name of a path: the component after the last slash. -/
def fileNameOf (p : String) : List Char :=
  (p.toList.reverse.takeWhile (fun c => c ≠ '/')).reverse

/-- Embedding of Path::extension: the portion of the file name after the
last dot, unless the name has no dot or only a leading dot. -/
def extension_of (p : String) : Option String :=
  match fileNameOf p with
  | [] => none
  | _ :: rest =>
    if rest.contains '.' then
      some ⟨(rest.reverse.takeWhile (fun c => c ≠ '.')).reverse⟩
    else none

/-- Lowercase a string character by character (to_lowercase on ASCII). -/
def lowerString (s : String) : String := ⟨s.data.map Char.toLower⟩

/-- Embedding of load_image (thumbnail.rs lines 131-149): dispatch on the
lowercased extension; HEIC and RAW-family extensions are unsupported; the
rest go to the image crate decoder, with its error wrapped. -/
def load_image (o : Oracle) (path : String) (d : MediaData) : Except String Image :=
  let ext := lowerString ((extension_of path).getD "")
  if ext = "heic" then
    .error ("HEIC format not yet supported: " ++ path ++
      ". Please install libheif-rs dependency.")
  else if ext = "raw" ∨ ext = "cr2" ∨ ext = "nef" then
    .error ("RAW format not yet supported: " ++ path ++
      ". Please install rawloader dependency.")
  else
    match o.decode (o.readBytes d) with
    | .ok img => .ok img
    | .error e => .error ("Failed to decode image: " ++ e)

/-- Orientation value extracted from the EXIF field (thumbnail.rs lines
191-197): the first entry of a nonempty Short vector, defaulting to 1. -/
def orientationValue : Option ExifValue → Nat
  | some (.short (x :: _)) => x
  | _ => 1

/-- Transform table of apply_orientation (thumbnail.rs lines 200-210). -/
def orientTransform (orientation : Nat) (img : Image) : Image :=
  match orientation with
  | 1 => img
  | 2 => img.fliph
  | 3 => img.rotate180
  | 4 => img.flipv
  | 5 => img.rotate90.fliph
  | 6 => img.rotate90
  | 7 => img.rotate270.fliph
  | 8 => img.rotate270
  | _ => img

/-- Embedding of apply_orientation (thumbnail.rs lines 172-213).  The file
argument is the File::open result at the source path; an unopenable file or
an unparseable EXIF container leaves the image unchanged. -/
def apply_orientation (o : Oracle) (img : Image) (file : Option File) :
    Except String Image :=
  match file with
  | none => .ok img
  | some f =>
    match o.exifOf (o.readBytes f.data) with
    | none => .ok img
    | some field => .ok (orientTransform (orientationValue field) img)

/-- Rounding of f64::round: to the nearest integer, ties away from zero. -/
def rustRound (x : ℚ) : ℤ := if 0 ≤ x then round x else -round (-x)

/-- Saturating cast of an f64-rounded value to u32 (as u32). -/
def f64_as_u32 (z : ℤ) : Nat := min z.toNat (2 ^ 32 - 1)

/-- Embedding of resize_exact with the Lanczos3 filter: exact target
dimensions, resampled pixels. -/
def resize_exact (o : Oracle) (img : Image) (w h : Nat) : Image :=
  ⟨w, h, o.resample img w h⟩

/-- Embedding of generate_thumbnail_size (thumbnail.rs lines 216-236):
derive the target height from the aspect ratio, resize exactly, and save
as JPEG at the output path.  Disk write failure is outside the model, so
the write always lands. -/
def generate_thumbnail_size (o : Oracle) (img : Image) (output_path : String)
    (target_width : Nat) (fs : FS) : FS :=
  let target_height :=
    f64_as_u32 (rustRound ((img.height : ℚ) * ((target_width : ℚ) / (img.width : ℚ))))
  let thumbnail := resize_exact o img target_width target_height
  fs.write output_path (.jpegOf thumbnail)

/-- Cache path of the small thumbnail: cache_dir joined with
checksum_small.jpg (thumbnail.rs line 51). -/
def smallPath (cache_dir checksum : String) : String :=
  cache_dir ++ "/" ++ checksum ++ "_small.jpg"

/-- Cache path of the medium thumbnail: cache_dir joined with
checksum_medium.jpg (thumbnail.rs line 52). -/
def mediumPath (cache_dir checksum : String) : String :=
  cache_dir ++ "/" ++ checksum ++ "_medium.jpg"

/-- Embedding of generate_thumbnails (thumbnail.rs lines 22-85).  Returns
the command result together with the filesystem state after the call. -/
def generate_thumbnails (o : Oracle) (image_path cache_dir : String) (fs : FS) :
    Except String ThumbnailPaths × FS :=
  match fs.files image_path with
  | none =>
    if fs.dirs image_path then (.error ("Path is not a file: " ++ image_path), fs)
    else (.error ("Image file does not exist: " ++ image_path), fs)
  | some f =>
    let file_mtime := f.mtime
    match compute_checksum o (some f) with
    | .error e => (.error e, fs)
    | .ok checksum =>
      let fs1 := fs.mkdir cache_dir
      let small_path := smallPath cache_dir checksum
      let medium_path := mediumPath cache_dir checksum
      let should := should_regenerate_thumbnails (fs1.pathExists small_path)
        (fs1.pathExists medium_path) (fs1.mtimeOf small_path)
        (fs1.mtimeOf medium_path) file_mtime
      if should = false then (.ok ⟨small_path, medium_path⟩, fs1)
      else
        match load_image o image_path f.data with
        | .error e => (.error e, fs1)
        | .ok img0 =>
          match apply_orientation o img0 (fs1.files image_path) with
          | .error e => (.error e, fs1)
          | .ok img =>
            let fs2 := generate_thumbnail_size o img small_path THUMBNAIL_SMALL_WIDTH fs1
            let fs3 := generate_thumbnail_size o img medium_path THUMBNAIL_MEDIUM_WIDTH fs2
            (.ok ⟨small_path, medium_path⟩, fs3)

/-- Modelled from the spec: the frame-offset selection of the video
thumbnail path.  The body of thumbnail::generate_video_thumbnails is not
among the provided sources (src-tauri/src/lib.rs lines 115-145 only call
it); spec section 4.4 fixes the policy: a duration above 5 seconds
extracts the frame at the 5-second mark, otherwise at t = 0. -/
def video_frame_offset (duration : ℚ) : ℚ := if duration > 5 then 5 else 0

/-! ## Helper lemmas on the filesystem model -/

@[simp]
lemma FS.mkdir_files (fs : FS) (d : String) : (fs.mkdir d).files = fs.files := rfl

@[simp]
lemma FS.mkdir_clock (fs : FS) (d : String) : (fs.mkdir d).clock = fs.clock := rfl

@[simp]
lemma FS.write_dirs (fs : FS) (p : String) (d : MediaData) :
    (fs.write p d).dirs = fs.dirs := rfl

@[simp]
lemma FS.write_clock (fs : FS) (p : String) (d : MediaData) :
    (fs.write p d).clock = fs.clock := rfl

lemma FS.write_files_self (fs : FS) (p : String) (d : MediaData) :
    (fs.write p d).files p = some ⟨d, fs.clock⟩ := by
  simp [FS.write]

lemma FS.write_files_ne (fs : FS) (p q : String) (d : MediaData) (h : q ≠ p) :
    (fs.write p d).files q = fs.files q := by
  simp [FS.write, h]

lemma FS.mkdir_mkdir_dirs (fs : FS) (d q : String) :
    ((fs.mkdir d).mkdir d).dirs q = (fs.mkdir d).dirs q := by
  by_cases h : q = d <;> simp [FS.mkdir, h]

lemma smallPath_ne_mediumPath (cd ck : String) : smallPath cd ck ≠ mediumPath cd ck := by
  intro h
  have hl := congrArg String.length h
  have h1 : ("/" : String).length = 1 := rfl
  have h10 : ("_small.jpg" : String).length = 10 := rfl
  have h11 : ("_medium.jpg" : String).length = 11 := rfl
  simp only [smallPath, mediumPath, String.length_append, h1, h10, h11] at hl
  omega

lemma apply_orientation_isOk (o : Oracle) (img : Image) (file : Option File) :
    ∃ r, apply_orientation o img file = .ok r := by
  unfold apply_orientation
  rcases file with _ | f
  · exact ⟨img, rfl⟩
  · rcases h : o.exifOf (o.readBytes f.data) with _ | field <;> simp [h]

lemma mkdir_self_eq (fs : FS) (cd : String) (h : fs.dirs cd = true) :
    fs.mkdir cd = fs := by
  apply FS.ext
  · rfl
  · funext q
    by_cases hq : q = cd <;> simp [FS.mkdir, hq, h]
  · rfl

@[simp]
lemma generate_thumbnail_size_eq (o : Oracle) (img : Image) (pth : String)
    (w : Nat) (fs : FS) :
    generate_thumbnail_size o img pth w fs =
      fs.write pth (.jpegOf (resize_exact o img w
        (f64_as_u32 (rustRound ((img.height : ℚ) * ((w : ℚ) / (img.width : ℚ))))))) := rfl

lemma generate_fastpath (o : Oracle) (p cd : String) (fs : FS) (f : File)
    (hf : fs.files p = some f)
    (hs : should_regenerate_thumbnails
      ((fs.mkdir cd).pathExists (smallPath cd (checksumString (o.readBytes f.data))))
      ((fs.mkdir cd).pathExists (mediumPath cd (checksumString (o.readBytes f.data))))
      ((fs.mkdir cd).mtimeOf (smallPath cd (checksumString (o.readBytes f.data))))
      ((fs.mkdir cd).mtimeOf (mediumPath cd (checksumString (o.readBytes f.data))))
      f.mtime = false) :
    generate_thumbnails o p cd fs =
      (.ok ⟨smallPath cd (checksumString (o.readBytes f.data)),
            mediumPath cd (checksumString (o.readBytes f.data))⟩, fs.mkdir cd) := by
  unfold generate_thumbnails
  rw [hf]
  simp only [compute_checksum, hs, if_true]

lemma generate_regen_load_error (o : Oracle) (p cd : String) (fs : FS) (f : File)
    (e : String) (hf : fs.files p = some f)
    (hs : ¬ should_regenerate_thumbnails
      ((fs.mkdir cd).pathExists (smallPath cd (checksumString (o.readBytes f.data))))
      ((fs.mkdir cd).pathExists (mediumPath cd (checksumString (o.readBytes f.data))))
      ((fs.mkdir cd).mtimeOf (smallPath cd (checksumString (o.readBytes f.data))))
      ((fs.mkdir cd).mtimeOf (mediumPath cd (checksumString (o.readBytes f.data))))
      f.mtime = false)
    (hload : load_image o p f.data = .error e) :
    generate_thumbnails o p cd fs = (.error e, fs.mkdir cd) := by
  unfold generate_thumbnails
  rw [hf]
  simp only [compute_checksum, if_neg hs, hload]

lemma generate_regen (o : Oracle) (p cd : String) (fs : FS) (f : File)
    (img0 img : Image) (hf : fs.files p = some f)
    (hs : ¬ should_regenerate_thumbnails
      ((fs.mkdir cd).pathExists (smallPath cd (checksumString (o.readBytes f.data))))
      ((fs.mkdir cd).pathExists (mediumPath cd (checksumString (o.readBytes f.data))))
      ((fs.mkdir cd).mtimeOf (smallPath cd (checksumString (o.readBytes f.data))))
      ((fs.mkdir cd).mtimeOf (mediumPath cd (checksumString (o.readBytes f.data))))
      f.mtime = false)
    (hload : load_image o p f.data = .ok img0)
    (happ : apply_orientation o img0 (fs.files p) = .ok img) :
    generate_thumbnails o p cd fs =
      (.ok ⟨smallPath cd (checksumString (o.readBytes f.data)),
            mediumPath cd (checksumString (o.readBytes f.data))⟩,
       generate_thumbnail_size o img
         (mediumPath cd (checksumString (o.readBytes f.data))) THUMBNAIL_MEDIUM_WIDTH
         (generate_thumbnail_size o img
           (smallPath cd (checksumString (o.readBytes f.data))) THUMBNAIL_SMALL_WIDTH
           (fs.mkdir cd))) := by
  unfold generate_thumbnails
  rw [hf]
  simp only [compute_checksum, if_neg hs, hload, FS.mkdir_files, happ]

lemma generate_ok_of_load_ok (o : Oracle) (p cd : String) (fs : FS) (f : File)
    (img : Image) (hf : fs.files p = some f)
    (hload : load_image o p f.data = .ok img) :
    ∃ res fs1, generate_thumbnails o p cd fs = (.ok res, fs1) := by
  unfold generate_thumbnails
  rw [hf]
  simp only [compute_checksum]
  split
  · exact ⟨_, _, rfl⟩
  · rw [hload]
    obtain ⟨r, hr⟩ := apply_orientation_isOk o img ((fs.mkdir cd).files p)
    simp only [hr]
    exact ⟨_, _, rfl⟩

lemma sha256_length (msg : List Nat) : (sha256 msg).length = 32 := by
  simp [sha256, wordBytes]

lemma sha256_lt (msg : List Nat) : ∀ b ∈ sha256 msg, b < 256 := by
  intro b hb
  simp [sha256, wordBytes] at hb
  omega

lemma foldrHex_length (l : List Nat) :
    (l.foldr (fun b acc => byteHexChars b ++ acc) []).length = 2 * l.length := by
  induction l with
  | nil => rfl
  | cons b t ih =>
    have hb : (byteHexChars b).length = 2 := rfl
    rw [List.foldr_cons, List.length_append, ih, hb, List.length_cons]
    omega

lemma checksumString_length (data : List Nat) : (checksumString data).length = 64 := by
  show (checksumChars data).length = 64
  unfold checksumChars
  rw [foldrHex_length, sha256_length]

lemma hexDigit_mem (n : Nat) (hn : n < 16) : hexDigit n ∈ "0123456789abcdef".data := by
  interval_cases n <;> decide

lemma foldrHex_mem (l : List Nat) (hl : ∀ b ∈ l, b < 256) :
    ∀ c ∈ l.foldr (fun b acc => byteHexChars b ++ acc) [],
      c ∈ "0123456789abcdef".data := by
  induction l with
  | nil => simp
  | cons b t ih =>
    intro c hc
    have hb : b < 256 := hl b (List.mem_cons_self b t)
    rcases List.mem_append.mp hc with hc1 | hc2
    · simp only [byteHexChars, List.mem_cons, List.not_mem_nil, or_false] at hc1
      rcases hc1 with rfl | rfl
      · exact hexDigit_mem _ (by omega)
      · exact hexDigit_mem _ (by omega)
    · exact ih (fun x hx => hl x (List.mem_cons_of_mem _ hx)) c hc2

lemma checksumString_hex (data : List Nat) :
    ∀ c ∈ (checksumString data).data, c ∈ "0123456789abcdef".data :=
  foldrHex_mem _ (sha256_lt data)

/-! ## Concrete fixtures used by the witnesses -/

/-- Test image of width 2 and height 1. -/
def tImg : Image := ⟨2, 1, fun _ _ => 7⟩

/-- Test oracle: decoding always yields tImg, the EXIF container is
unreadable, resampling and encoding are fixed. -/
def tOracle : Oracle :=
  { decode := fun _ => .ok tImg
    exifOf := fun _ => none
    resample := fun _ _ _ _ _ => 0
    encodeJpeg := fun _ => [9] }

/-- Test oracle whose EXIF orientation field is Short [6]. -/
def tOracle6 : Oracle := { tOracle with exifOf := fun _ => some (some (.short [6])) }

/-- Test source file: three bytes, mtime 5. -/
def tFile : File := ⟨.bytes [1, 2, 3], 5⟩

/-- Test filesystem: one image at pic.jpg, no directories, clock 100. -/
def tFS : FS :=
  { files := fun q => if q = "pic.jpg" then some tFile else none
    dirs := fun _ => false
    clock := 100 }

/-! ## The claims -/

/-- C2: should_regenerate_thumbnails answers regenerate exactly when the
small or the medium thumbnail file is missing, or when the source
modification time is strictly newer than a readable cached modification
time; in every other case, including a cached file whose modification time
cannot be read, it answers reuse. -/
theorem should_regenerate_thumbnails_iff (se me : Bool) (sm mm : Option Nat) (src : Nat) :
    should_regenerate_thumbnails se me sm mm src = true ↔
      (se = false ∨ me = false ∨
       (∃ m, sm = some m ∧ m < src) ∨ (∃ m, mm = some m ∧ m < src)) := by
  unfold should_regenerate_thumbnails
  rcases se <;> rcases me <;> rcases sm with _ | s <;> rcases mm with _ | m <;>
    simp <;> omega

/-- C5: the video thumbnail frame offset is the 5-second mark when the
duration exceeds 5 seconds, and t equal 0 otherwise (modelled from the
spec; see video_frame_offset). -/
theorem video_frame_offset_policy (d : ℚ) :
    (5 < d → video_frame_offset d = 5) ∧ (d ≤ 5 → video_frame_offset d = 0) := by
  unfold video_frame_offset
  constructor
  · intro h; rw [if_pos h]
  · intro h; rw [if_neg (not_lt.mpr h)]

/-- Witness for C5: a 42-second video is sampled at 5 seconds, a
2.4-second video at 0. -/
theorem video_frame_offset_policy_witness :
    video_frame_offset 42 = 5 ∧ video_frame_offset (12 / 5) = 0 :=
  ⟨(video_frame_offset_policy 42).1 (by norm_num),
   (video_frame_offset_policy (12 / 5)).2 (by norm_num)⟩

/-- C4: for an EXIF orientation value v between 1 and 8, apply_orientation
applies the transform of the table (1 identity, 2 horizontal flip, 3
rotate 180, 4 vertical flip, 5 rotate 90 plus horizontal flip, 6 rotate
90, 7 rotate 270 plus horizontal flip, 8 rotate 270); the dimensions are
swapped for v in 5..8 and unchanged for v in 1..4. -/
theorem apply_orientation_transform_table (o : Oracle) (img : Image) (f : File)
    (v : Nat) (hv : 1 ≤ v ∧ v ≤ 8)
    (hexif : o.exifOf (o.readBytes f.data) = some (some (.short [v]))) :
    apply_orientation o img (some f) = .ok (orientTransform v img) ∧
    (orientTransform 1 img = img ∧ orientTransform 2 img = img.fliph ∧
     orientTransform 3 img = img.rotate180 ∧ orientTransform 4 img = img.flipv ∧
     orientTransform 5 img = img.rotate90.fliph ∧ orientTransform 6 img = img.rotate90 ∧
     orientTransform 7 img = img.rotate270.fliph ∧ orientTransform 8 img = img.rotate270) ∧
    (v ≤ 4 → (orientTransform v img).width = img.width ∧
             (orientTransform v img).height = img.height) ∧
    (5 ≤ v → (orientTransform v img).width = img.height ∧
             (orientTransform v img).height = img.width) := by
  obtain ⟨hv1, hv8⟩ := hv
  refine ⟨?_, ⟨rfl, rfl, rfl, rfl, rfl, rfl, rfl, rfl⟩, ?_, ?_⟩
  · simp [apply_orientation, hexif, orientationValue]
  · intro h4
    interval_cases v <;>
      simp [orientTransform, Image.fliph, Image.flipv, Image.rotate180]
  · intro h5
    interval_cases v <;>
      simp [orientTransform, Image.fliph, Image.rotate90, Image.rotate270]

/-- Witness for C4: orientation 6 rotates the 2 by 1 test image into a
1 by 2 image. -/
theorem apply_orientation_transform_table_witness :
    apply_orientation tOracle6 tImg (some tFile) = .ok (orientTransform 6 tImg) ∧
    (orientTransform 6 tImg).width = tImg.height ∧
    (orientTransform 6 tImg).height = tImg.width := by
  have h := apply_orientation_transform_table tOracle6 tImg tFile 6 (by decide) rfl
  exact ⟨h.1, (h.2.2.2 (by decide)).1, (h.2.2.2 (by decide)).2⟩

/-- C8: a failure to read EXIF data never fails apply_orientation; when the
file cannot be opened, the EXIF container cannot be parsed, or the
orientation field is absent, the image passes through unmodified, and
generate_thumbnails still succeeds whenever decoding succeeds. -/
theorem apply_orientation_exif_failure_graceful (o : Oracle) :
    (∀ img, apply_orientation o img none = .ok img) ∧
    (∀ img f, o.exifOf (o.readBytes f.data) = none →
      apply_orientation o img (some f) = .ok img) ∧
    (∀ img f, o.exifOf (o.readBytes f.data) = some none →
      apply_orientation o img (some f) = .ok img) ∧
    (∀ img file, ∃ r, apply_orientation o img file = .ok r) ∧
    (∀ p cd fs f img, fs.files p = some f →
      o.exifOf (o.readBytes f.data) = none →
      load_image o p f.data = .ok img →
      ∃ res fs1, generate_thumbnails o p cd fs = (.ok res, fs1)) := by
  refine ⟨fun img => rfl, ?_, ?_, fun img file => apply_orientation_isOk o img file, ?_⟩
  · intro img f h
    simp [apply_orientation, h]
  · intro img f h
    simp [apply_orientation, h, orientationValue, orientTransform]
  · intro p cd fs f img hf _ hload
    exact generate_ok_of_load_ok o p cd fs f img hf hload

/-- Witness for C8: the test oracle has an unreadable EXIF container; the
image passes through and the whole call succeeds. -/
theorem apply_orientation_exif_failure_graceful_witness :
    apply_orientation tOracle tImg (some tFile) = .ok tImg ∧
    ∃ res fs1, generate_thumbnails tOracle "pic.jpg" "cache" tFS = (.ok res, fs1) := by
  have h := apply_orientation_exif_failure_graceful tOracle
  exact ⟨h.2.1 tImg tFile rfl, h.2.2.2.2 "pic.jpg" "cache" tFS tFile tImg rfl rfl rfl⟩

/-- C10: an orientation field that is an empty Short vector, a non-Short
value, or a Short value outside 1..8 results in the identity transform,
and generate_thumbnails succeeds as with orientation 1. -/
theorem apply_orientation_invalid_value_identity (o : Oracle) (img : Image) (f : File) :
    (o.exifOf (o.readBytes f.data) = some (some (.short [])) →
      apply_orientation o img (some f) = .ok img) ∧
    (o.exifOf (o.readBytes f.data) = some (some .other) →
      apply_orientation o img (some f) = .ok img) ∧
    (∀ v rest, o.exifOf (o.readBytes f.data) = some (some (.short (v :: rest))) →
      v = 0 ∨ 9 ≤ v → apply_orientation o img (some f) = .ok img) ∧
    (∀ p cd fs img1, fs.files p = some f → load_image o p f.data = .ok img1 →
      ∃ res fs1, generate_thumbnails o p cd fs = (.ok res, fs1)) := by
  refine ⟨?_, ?_, ?_, ?_⟩
  · intro h
    simp [apply_orientation, h, orientationValue, orientTransform]
  · intro h
    simp [apply_orientation, h, orientationValue, orientTransform]
  · intro v rest h hv
    have htr : orientTransform v img = img := by
      rcases hv with rfl | h9
      · rfl
      · obtain ⟨n, rfl⟩ : ∃ n, v = n + 9 := ⟨v - 9, by omega⟩
        rfl
    simp [apply_orientation, h, orientationValue, htr]
  · intro p cd fs img1 hf hload
    exact generate_ok_of_load_ok o p cd fs f img1 hf hload

/-- Witness for C10: orientation value 9 leaves the test image unchanged. -/
theorem apply_orientation_invalid_value_identity_witness :
    apply_orientation { tOracle with exifOf := fun _ => some (some (.short [9])) }
      tImg (some tFile) = .ok tImg :=
  (apply_orientation_invalid_value_identity
    { tOracle with exifOf := fun _ => some (some (.short [9])) } tImg tFile).2.2.1
    9 [] rfl (Or.inr (by norm_num))

lemma f64_as_u32_round_eq (hgt wdt : ℕ) (W : ℚ) (hW : 0 ≤ W)
    (hlt : round ((hgt : ℚ) * (W / (wdt : ℚ))) < 2 ^ 32) :
    ((f64_as_u32 (rustRound ((hgt : ℚ) * (W / (wdt : ℚ))))) : ℤ) =
      round ((hgt : ℚ) * (W / (wdt : ℚ))) := by
  have h0 : (0 : ℚ) ≤ (hgt : ℚ) * (W / (wdt : ℚ)) :=
    mul_nonneg (Nat.cast_nonneg _) (div_nonneg hW (Nat.cast_nonneg _))
  have h0' : 0 ≤ round ((hgt : ℚ) * (W / (wdt : ℚ))) := by
    rw [round_eq]
    exact Int.floor_nonneg.mpr (by linarith)
  unfold rustRound f64_as_u32
  rw [if_pos h0]
  omega

/-- C1: when a call of generate_thumbnails succeeds and the source file is
unchanged, a later call (at any later clock) returns exactly the same
small and medium paths and leaves the filesystem, in particular the two
output files and their modification times, untouched: it takes the cache
fast path.  The source modification time is assumed not to lie in the
future, and the source is not itself one of the two cache paths. -/
theorem generate_thumbnails_idempotent (o : Oracle) (p cd : String) (fs0 : FS)
    (paths : ThumbnailPaths) (fs1 : FS) (c2 : Nat)
    (h1 : generate_thumbnails o p cd fs0 = (.ok paths, fs1))
    (hm : ∀ f, fs0.files p = some f → f.mtime ≤ fs0.clock)
    (hps : p ≠ paths.small) (hpm : p ≠ paths.medium) :
    generate_thumbnails o p cd { fs1 with clock := c2 } =
      (.ok paths, { fs1 with clock := c2 }) := by
  rcases hff : fs0.files p with _ | f
  · unfold generate_thumbnails at h1
    simp only [hff] at h1
    split at h1 <;> simp at h1
  · set ck := checksumString (o.readBytes f.data) with hck
    set sp := smallPath cd ck with hsp
    set mp := mediumPath cd ck with hmp
    by_cases hs : should_regenerate_thumbnails ((fs0.mkdir cd).pathExists sp)
      ((fs0.mkdir cd).pathExists mp) ((fs0.mkdir cd).mtimeOf sp)
      ((fs0.mkdir cd).mtimeOf mp) f.mtime = false
    · -- the first call already took the fast path
      rw [generate_fastpath o p cd fs0 f hff hs] at h1
      injection h1 with h1a h1b
      injection h1a with h1a
      subst h1b
      obtain rfl : paths = ⟨sp, mp⟩ := h1a.symm
      have hfB : ({ fs0.mkdir cd with clock := c2 } : FS).files p = some f := hff
      have hs2 : should_regenerate_thumbnails
          ((({ fs0.mkdir cd with clock := c2 } : FS).mkdir cd).pathExists sp)
          ((({ fs0.mkdir cd with clock := c2 } : FS).mkdir cd).pathExists mp)
          ((({ fs0.mkdir cd with clock := c2 } : FS).mkdir cd).mtimeOf sp)
          ((({ fs0.mkdir cd with clock := c2 } : FS).mkdir cd).mtimeOf mp)
          f.mtime = false := by
        have hpe : ∀ q, (({ fs0.mkdir cd with clock := c2 } : FS).mkdir cd).pathExists q =
            (fs0.mkdir cd).pathExists q := by
          intro q
          by_cases hq : q = cd <;> simp [FS.pathExists, FS.mkdir, hq]
        rw [hpe sp, hpe mp]
        exact hs
      rw [generate_fastpath o p cd _ f hfB hs2]
      rw [mkdir_self_eq _ cd (by simp [FS.mkdir])]
    · -- the first call regenerated both files
      rcases hload : load_image o p f.data with e | img0
      · rw [generate_regen_load_error o p cd fs0 f e hff hs hload] at h1
        simp at h1
      · rcases happ : apply_orientation o img0 (fs0.files p) with e2 | img
        · obtain ⟨r, hr⟩ := apply_orientation_isOk o img0 (fs0.files p)
          rw [happ] at hr
          simp at hr
        · rw [generate_regen o p cd fs0 f img0 img hff hs hload happ] at h1
          injection h1 with h1a h1b
          injection h1a with h1a
          subst h1b
          obtain rfl : paths = ⟨sp, mp⟩ := h1a.symm
          have hqs : p ≠ sp := hps
          have hqm : p ≠ mp := hpm
          have hspmp : sp ≠ mp := smallPath_ne_mediumPath cd ck
          -- the state written by the first call, clock advanced
          set fsB : FS :=
            { generate_thumbnail_size o img mp THUMBNAIL_MEDIUM_WIDTH
                (generate_thumbnail_size o img sp THUMBNAIL_SMALL_WIDTH
                  (fs0.mkdir cd)) with clock := c2 } with hfsB
          have hfB : fsB.files p = some f := by
            rw [hfsB]
            show ((generate_thumbnail_size o img sp THUMBNAIL_SMALL_WIDTH
              (fs0.mkdir cd)).write mp _).files p = some f
            rw [FS.write_files_ne _ _ _ _ hqm]
            show ((fs0.mkdir cd).write sp _).files p = some f
            rw [FS.write_files_ne _ _ _ _ hqs]
            exact hff
          have hsp_file : fsB.files sp =
              some ⟨.jpegOf (resize_exact o img THUMBNAIL_SMALL_WIDTH
                (f64_as_u32 (rustRound ((img.height : ℚ) *
                  ((THUMBNAIL_SMALL_WIDTH : ℚ) / (img.width : ℚ)))))), fs0.clock⟩ := by
            rw [hfsB]
            show ((generate_thumbnail_size o img sp THUMBNAIL_SMALL_WIDTH
              (fs0.mkdir cd)).write mp _).files sp = _
            rw [FS.write_files_ne _ _ _ _ hspmp]
            show ((fs0.mkdir cd).write sp _).files sp = _
            rw [FS.write_files_self]
            rfl
          have hmp_file : fsB.files mp =
              some ⟨.jpegOf (resize_exact o img THUMBNAIL_MEDIUM_WIDTH
                (f64_as_u32 (rustRound ((img.height : ℚ) *
                  ((THUMBNAIL_MEDIUM_WIDTH : ℚ) / (img.width : ℚ)))))), fs0.clock⟩ := by
            rw [hfsB]
            show ((generate_thumbnail_size o img sp THUMBNAIL_SMALL_WIDTH
              (fs0.mkdir cd)).write mp _).files mp = _
            rw [FS.write_files_self]
            rfl
          have hmle : f.mtime ≤ fs0.clock := hm f hff
          have hs2 : should_regenerate_thumbnails
              ((fsB.mkdir cd).pathExists sp) ((fsB.mkdir cd).pathExists mp)
              ((fsB.mkdir cd).mtimeOf sp) ((fsB.mkdir cd).mtimeOf mp)
              f.mtime = false := by
            have h1s : (fsB.mkdir cd).pathExists sp = true := by
              unfold FS.pathExists
              rw [FS.mkdir_files, hsp_file]
              rfl
            have h1m : (fsB.mkdir cd).pathExists mp = true := by
              unfold FS.pathExists
              rw [FS.mkdir_files, hmp_file]
              rfl
            have h2s : (fsB.mkdir cd).mtimeOf sp = some fs0.clock := by
              unfold FS.mtimeOf
              rw [FS.mkdir_files, hsp_file]
              rfl
            have h2m : (fsB.mkdir cd).mtimeOf mp = some fs0.clock := by
              unfold FS.mtimeOf
              rw [FS.mkdir_files, hmp_file]
              rfl
            rw [h1s, h1m, h2s, h2m]
            unfold should_regenerate_thumbnails
            simp
            omega
          rw [generate_fastpath o p cd fsB f hfB hs2]
          rw [mkdir_self_eq fsB cd (by simp [hfsB, FS.mkdir])]

/-- Witness for C1: generating thumbnails for pic.jpg and calling again at
clock 200 returns the same paths and leaves the filesystem unchanged. -/
theorem generate_thumbnails_idempotent_witness :
    generate_thumbnails tOracle "pic.jpg" "cache"
      { (generate_thumbnails tOracle "pic.jpg" "cache" tFS).2 with clock := 200 } =
      (.ok ⟨smallPath "cache" (checksumString [1, 2, 3]),
            mediumPath "cache" (checksumString [1, 2, 3])⟩,
       { (generate_thumbnails tOracle "pic.jpg" "cache" tFS).2 with clock := 200 }) :=
  generate_thumbnails_idempotent tOracle "pic.jpg" "cache" tFS
    ⟨smallPath "cache" (checksumString [1, 2, 3]),
     mediumPath "cache" (checksumString [1, 2, 3])⟩
    (generate_thumbnails tOracle "pic.jpg" "cache" tFS).2 200
    rfl
    (by intro f hf
        have h2 : some tFile = some f := hf
        obtain rfl := Option.some.inj h2
        decide)
    (by decide) (by decide)

/-- C3: a successful call of generate_thumbnails either takes the fast
path and leaves every file untouched, or writes exactly at its two
distinct returned paths two JPEG files whose widths are exactly 150 and
600; each height is the saturating u32 cast of
round(orig_height * target_width / orig_width) computed on the
orientation-corrected image, which is round(orig_height * W / orig_width)
itself whenever the source width is positive and the value is below
2 to the 32 (f64 arithmetic is modelled exactly over the rationals). -/
theorem generate_thumbnails_output_dimensions (o : Oracle) (p cd : String)
    (fs : FS) (res : ThumbnailPaths) (fs1 : FS)
    (h1 : generate_thumbnails o p cd fs = (.ok res, fs1)) :
    res.small ≠ res.medium ∧
    ((∀ q, fs1.files q = fs.files q) ∨
      ∃ f img0 img tS tM,
        fs.files p = some f ∧
        load_image o p f.data = .ok img0 ∧
        apply_orientation o img0 (fs.files p) = .ok img ∧
        fs1.files res.small = some ⟨.jpegOf tS, fs.clock⟩ ∧
        fs1.files res.medium = some ⟨.jpegOf tM, fs.clock⟩ ∧
        tS.width = 150 ∧ tM.width = 600 ∧
        tS.height = f64_as_u32 (rustRound
          ((img.height : ℚ) * ((THUMBNAIL_SMALL_WIDTH : ℚ) / (img.width : ℚ)))) ∧
        tM.height = f64_as_u32 (rustRound
          ((img.height : ℚ) * ((THUMBNAIL_MEDIUM_WIDTH : ℚ) / (img.width : ℚ)))) ∧
        (round ((img.height : ℚ) * ((THUMBNAIL_SMALL_WIDTH : ℚ) / (img.width : ℚ))) < 2 ^ 32 →
          (tS.height : ℤ) = round
            ((img.height : ℚ) * ((THUMBNAIL_SMALL_WIDTH : ℚ) / (img.width : ℚ)))) ∧
        (round ((img.height : ℚ) * ((THUMBNAIL_MEDIUM_WIDTH : ℚ) / (img.width : ℚ))) < 2 ^ 32 →
          (tM.height : ℤ) = round
            ((img.height : ℚ) * ((THUMBNAIL_MEDIUM_WIDTH : ℚ) / (img.width : ℚ))))) := by
  rcases hff : fs.files p with _ | f
  · unfold generate_thumbnails at h1
    simp only [hff] at h1
    split at h1 <;> simp at h1
  · by_cases hs : should_regenerate_thumbnails
      ((fs.mkdir cd).pathExists (smallPath cd (checksumString (o.readBytes f.data))))
      ((fs.mkdir cd).pathExists (mediumPath cd (checksumString (o.readBytes f.data))))
      ((fs.mkdir cd).mtimeOf (smallPath cd (checksumString (o.readBytes f.data))))
      ((fs.mkdir cd).mtimeOf (mediumPath cd (checksumString (o.readBytes f.data))))
      f.mtime = false
    · rw [generate_fastpath o p cd fs f hff hs] at h1
      injection h1 with h1a h1b
      injection h1a with h1a
      subst h1b
      obtain rfl : res = _ := h1a.symm
      exact ⟨smallPath_ne_mediumPath _ _, Or.inl fun q => rfl⟩
    · rcases hload : load_image o p f.data with e | img0
      · rw [generate_regen_load_error o p cd fs f e hff hs hload] at h1
        simp at h1
      · rcases happ : apply_orientation o img0 (some f) with e2 | img
        · obtain ⟨r, hr⟩ := apply_orientation_isOk o img0 (some f)
          rw [happ] at hr
          simp at hr
        · rw [generate_regen o p cd fs f img0 img hff hs hload
            (by rw [hff]; exact happ)] at h1
          injection h1 with h1a h1b
          injection h1a with h1a
          subst h1b
          obtain rfl : res = _ := h1a.symm
          have hspmp : smallPath cd (checksumString (o.readBytes f.data)) ≠
              mediumPath cd (checksumString (o.readBytes f.data)) :=
            smallPath_ne_mediumPath _ _
          refine ⟨hspmp, Or.inr ⟨f, img0, img,
            resize_exact o img THUMBNAIL_SMALL_WIDTH (f64_as_u32 (rustRound
              ((img.height : ℚ) * ((THUMBNAIL_SMALL_WIDTH : ℚ) / (img.width : ℚ))))),
            resize_exact o img THUMBNAIL_MEDIUM_WIDTH (f64_as_u32 (rustRound
              ((img.height : ℚ) * ((THUMBNAIL_MEDIUM_WIDTH : ℚ) / (img.width : ℚ))))),
            rfl, hload, happ, ?_, ?_,
            rfl, rfl, rfl, rfl, ?_, ?_⟩⟩
          · show ((generate_thumbnail_size o img
              (smallPath cd (checksumString (o.readBytes f.data)))
              THUMBNAIL_SMALL_WIDTH (fs.mkdir cd)).write
                (mediumPath cd (checksumString (o.readBytes f.data))) _).files
                  (smallPath cd (checksumString (o.readBytes f.data))) = _
            rw [FS.write_files_ne _ _ _ _ hspmp]
            show ((fs.mkdir cd).write _ _).files _ = _
            rw [FS.write_files_self]
            rfl
          · show ((generate_thumbnail_size o img
              (smallPath cd (checksumString (o.readBytes f.data)))
              THUMBNAIL_SMALL_WIDTH (fs.mkdir cd)).write
                (mediumPath cd (checksumString (o.readBytes f.data))) _).files
                  (mediumPath cd (checksumString (o.readBytes f.data))) = _
            rw [FS.write_files_self]
            rfl
          · intro hlt
            exact f64_as_u32_round_eq img.height img.width _ (Nat.cast_nonneg _) hlt
          · intro hlt
            exact f64_as_u32_round_eq img.height img.width _ (Nat.cast_nonneg _) hlt

/-- Witness for C3: the successful run on pic.jpg has two distinct output
paths. -/
theorem generate_thumbnails_output_dimensions_witness :
    smallPath "cache" (checksumString [1, 2, 3]) ≠
      mediumPath "cache" (checksumString [1, 2, 3]) :=
  (generate_thumbnails_output_dimensions tOracle "pic.jpg" "cache" tFS
    ⟨smallPath "cache" (checksumString [1, 2, 3]),
     mediumPath "cache" (checksumString [1, 2, 3])⟩
    (generate_thumbnails tOracle "pic.jpg" "cache" tFS).2 rfl).1

/-- C9 amended: the filesystem writes of a call are confined to the two
derived thumbnail paths under the cache directory; any other path,
including the source unless the source path coincides with one of the two
derived cache paths, is untouched, and a fast-path call on an existing
cache directory performs no writes at all. -/
theorem generate_thumbnails_frame (o : Oracle) (p cd : String) (fs : FS) :
    ∃ sp mp : String,
      (∃ ck, sp = smallPath cd ck ∧ mp = mediumPath cd ck) ∧
      (∀ q, q ≠ sp → q ≠ mp →
        (generate_thumbnails o p cd fs).2.files q = fs.files q) ∧
      (∀ res fs1, generate_thumbnails o p cd fs = (.ok res, fs1) →
        res.small = sp ∧ res.medium = mp) ∧
      (∀ f, fs.files p = some f →
        should_regenerate_thumbnails ((fs.mkdir cd).pathExists sp)
          ((fs.mkdir cd).pathExists mp) ((fs.mkdir cd).mtimeOf sp)
          ((fs.mkdir cd).mtimeOf mp) f.mtime = false →
        fs.dirs cd = true →
        generate_thumbnails o p cd fs = (.ok ⟨sp, mp⟩, fs)) := by
  rcases hff : fs.files p with _ | f
  · refine ⟨smallPath cd "", mediumPath cd "", ⟨"", rfl, rfl⟩, ?_, ?_, ?_⟩
    · intro q _ _
      unfold generate_thumbnails
      simp only [hff]
      split <;> rfl
    · intro res fs1 h
      unfold generate_thumbnails at h
      simp only [hff] at h
      split at h <;> simp at h
    · intro f hf
      cases hf
  · refine ⟨smallPath cd (checksumString (o.readBytes f.data)),
      mediumPath cd (checksumString (o.readBytes f.data)),
      ⟨_, rfl, rfl⟩, ?_, ?_, ?_⟩
    · intro q hq1 hq2
      by_cases hs : should_regenerate_thumbnails
        ((fs.mkdir cd).pathExists (smallPath cd (checksumString (o.readBytes f.data))))
        ((fs.mkdir cd).pathExists (mediumPath cd (checksumString (o.readBytes f.data))))
        ((fs.mkdir cd).mtimeOf (smallPath cd (checksumString (o.readBytes f.data))))
        ((fs.mkdir cd).mtimeOf (mediumPath cd (checksumString (o.readBytes f.data))))
        f.mtime = false
      · rw [generate_fastpath o p cd fs f hff hs]
        rfl
      · rcases hload : load_image o p f.data with e | img0
        · rw [generate_regen_load_error o p cd fs f e hff hs hload]
          rfl
        · rcases happ : apply_orientation o img0 (fs.files p) with e2 | img
          · obtain ⟨r, hr⟩ := apply_orientation_isOk o img0 (fs.files p)
            rw [happ] at hr
            simp at hr
          · rw [generate_regen o p cd fs f img0 img hff hs hload happ]
            show ((generate_thumbnail_size o img _ THUMBNAIL_SMALL_WIDTH
              (fs.mkdir cd)).write _ _).files q = fs.files q
            rw [FS.write_files_ne _ _ _ _ hq2]
            show ((fs.mkdir cd).write _ _).files q = fs.files q
            rw [FS.write_files_ne _ _ _ _ hq1]
            rfl
    · intro res fs1 h
      by_cases hs : should_regenerate_thumbnails
        ((fs.mkdir cd).pathExists (smallPath cd (checksumString (o.readBytes f.data))))
        ((fs.mkdir cd).pathExists (mediumPath cd (checksumString (o.readBytes f.data))))
        ((fs.mkdir cd).mtimeOf (smallPath cd (checksumString (o.readBytes f.data))))
        ((fs.mkdir cd).mtimeOf (mediumPath cd (checksumString (o.readBytes f.data))))
        f.mtime = false
      · rw [generate_fastpath o p cd fs f hff hs] at h
        injection h with ha _
        injection ha with ha
        rw [← ha]
        exact ⟨rfl, rfl⟩
      · rcases hload : load_image o p f.data with e | img0
        · rw [generate_regen_load_error o p cd fs f e hff hs hload] at h
          simp at h
        · rcases happ : apply_orientation o img0 (fs.files p) with e2 | img
          · obtain ⟨r, hr⟩ := apply_orientation_isOk o img0 (fs.files p)
            rw [happ] at hr
            simp at hr
          · rw [generate_regen o p cd fs f img0 img hff hs hload happ] at h
            injection h with ha _
            injection ha with ha
            rw [← ha]
            exact ⟨rfl, rfl⟩
    · intro f' hf' hsh hdir
      obtain rfl := Option.some.inj hf'
      rw [generate_fastpath o p cd fs f hff hsh, mkdir_self_eq fs cd hdir]

/-- Witness for C9 amended: a path that is not one of the two derived
cache paths is untouched by the run on pic.jpg. -/
theorem generate_thumbnails_frame_witness :
    (generate_thumbnails tOracle "pic.jpg" "cache" tFS).2.files "other.txt" =
      tFS.files "other.txt" := by
  obtain ⟨sp, mp, ⟨ck, hsp, hmp⟩, hframe, -, -⟩ :=
    generate_thumbnails_frame tOracle "pic.jpg" "cache" tFS
  have h1 : ("/" : String).length = 1 := rfl
  have h10 : ("_small.jpg" : String).length = 10 := rfl
  have h11 : ("_medium.jpg" : String).length = 11 := rfl
  have h5 : ("cache" : String).length = 5 := rfl
  have h9 : ("other.txt" : String).length = 9 := rfl
  refine hframe _ ?_ ?_
  · intro h
    have hl := congrArg String.length h
    rw [hsp] at hl
    simp only [smallPath, String.length_append, h1, h10, h5, h9] at hl
    omega
  · intro h
    have hl := congrArg String.length h
    rw [hmp] at hl
    simp only [mediumPath, String.length_append, h1, h11, h5, h9] at hl
    omega

/-- Path of a source file that sits inside the cache directory and is
named exactly like the small thumbnail of its own content. -/
def selfPath : String := smallPath "cache" (checksumString [1, 2, 3])

/-- Filesystem holding the self-named source file of tFile content. -/
def tFSself : FS :=
  { files := fun q => if q = selfPath then some tFile else none
    dirs := fun _ => false
    clock := 100 }

/-- C9 counterexample: the source file is not always left unmodified; a
source stored in the cache directory under the name of its own small
thumbnail is overwritten by a successful call (its modification time
changes from 5 to 100). -/
theorem generate_thumbnails_overwrites_self_named_source :
    (generate_thumbnails tOracle selfPath "cache" tFSself).1 =
      .ok ⟨selfPath, mediumPath "cache" (checksumString [1, 2, 3])⟩ ∧
    (generate_thumbnails tOracle selfPath "cache" tFSself).2.mtimeOf selfPath ≠
      tFSself.mtimeOf selfPath :=
  ⟨rfl, by decide⟩

/-- Second test filesystem: the same three bytes under a different name
and directory, different mtime and clock. -/
def tFS2 : FS :=
  { files := fun q => if q = "other/copy.png" then some ⟨.bytes [1, 2, 3], 77⟩ else none
    dirs := fun _ => false
    clock := 3 }

/-- C6 counterexample: compute_checksum does not read the file in
bounded-size chunks; it performs a single fs::read of the whole file, so
no bound covers the read sizes of all inputs. -/
theorem compute_checksum_reads_whole_file :
    ¬ ∃ B : Nat, ∀ content : List Nat,
        ∀ s ∈ compute_checksum_read_sizes content, s ≤ B := by
  rintro ⟨B, hB⟩
  have h := hB (List.replicate (B + 1) 0) (B + 1)
    (by simp [compute_checksum_read_sizes])
  omega

/-- C6 amended: compute_checksum reads the whole file in one read, hashes
it, and returns a 64-character lowercase hexadecimal digest string. -/
theorem compute_checksum_single_read_lowercase_hex (content : List Nat) :
    compute_checksum_read_sizes content = [content.length] ∧
    (checksumString content).length = 64 ∧
    ∀ c ∈ (checksumString content).data, c ∈ "0123456789abcdef".data :=
  ⟨rfl, checksumString_length content, checksumString_hex content⟩

/-- Witness for C6 amended: a 3-byte file is read in a single 3-byte read
and its digest has 64 characters drawn from the lowercase hex alphabet. -/
theorem compute_checksum_single_read_lowercase_hex_witness :
    compute_checksum_read_sizes [1, 2, 3] = [3] ∧
    (checksumString [1, 2, 3]).length = 64 ∧ 'f' ∈ "0123456789abcdef".data := by
  have h := compute_checksum_single_read_lowercase_hex [1, 2, 3]
  exact ⟨h.1, h.2.1, h.2.2 'f' (by decide)⟩

/-- C7 counterexample: the cache key is not injective on byte contents;
because every digest is one of finitely many 64-hex-character strings,
two distinct byte contents with the same key exist, so a byte change does
not always produce a different key. -/
theorem checksum_key_not_injective :
    ¬ ∀ b1 b2 : List Nat, (∀ x ∈ b1, x < 256) → (∀ x ∈ b2, x < 256) →
        b1 ≠ b2 → checksumString b1 ≠ checksumString b2 := by
  intro h
  have hsha : ∀ v1 v2 : Fin 257 → Fin 2,
      sha256 (List.ofFn fun i => ((v1 i : Nat))) =
        sha256 (List.ofFn fun i => ((v2 i : Nat))) → v1 = v2 := by
    intro v1 v2 heq
    by_contra hne
    have hb1 : ∀ x ∈ (List.ofFn fun i => ((v1 i : Nat))), x < 256 := by
      intro x hx
      obtain ⟨i, rfl⟩ := (List.mem_ofFn _ _).mp hx
      exact lt_of_lt_of_le (v1 i).isLt (by norm_num)
    have hb2 : ∀ x ∈ (List.ofFn fun i => ((v2 i : Nat))), x < 256 := by
      intro x hx
      obtain ⟨i, rfl⟩ := (List.mem_ofFn _ _).mp hx
      exact lt_of_lt_of_le (v2 i).isLt (by norm_num)
    have henc : (List.ofFn fun i => ((v1 i : Nat))) ≠
        (List.ofFn fun i => ((v2 i : Nat))) := by
      intro hE
      apply hne
      have hfun := List.ofFn_inj.mp hE
      funext i
      exact Fin.val_injective (congrFun hfun i)
    exact h _ _ hb1 hb2 henc (by unfold checksumString checksumChars; rw [heq])
  have hinj : Function.Injective (fun v : Fin 257 → Fin 2 =>
      (fun i : Fin 32 =>
        (⟨(sha256 (List.ofFn fun j => ((v j : Nat)))).get
            (Fin.cast (sha256_length _).symm i),
          sha256_lt _ _ (List.get_mem _ _ _)⟩ : Fin 256))) := by
    intro v1 v2 hg
    apply hsha
    apply List.ext_get (by rw [sha256_length, sha256_length])
    intro n hn1 hn2
    have hcomp := congrFun hg ⟨n, by rw [sha256_length] at hn1; exact hn1⟩
    exact congrArg Fin.val hcomp
  have hcard := Fintype.card_le_of_injective _ hinj
  simp only [Fintype.card_fun, Fintype.card_fin] at hcard
  norm_num at hcard

/-- C7 amended: the cache key is a 64-character lowercase hexadecimal
digest determined solely by the byte content; files with identical bytes
share the key regardless of path or name (distinct contents can collide
only through a hash collision of the finite digest space). -/
theorem compute_checksum_key_content_determined (o1 o2 : Oracle) (fsa fsb : FS)
    (p1 p2 : String) (f1 f2 : File)
    (h1 : fsa.files p1 = some f1) (h2 : fsb.files p2 = some f2)
    (hb : o1.readBytes f1.data = o2.readBytes f2.data) :
    compute_checksum o1 (fsa.files p1) = compute_checksum o2 (fsb.files p2) ∧
    compute_checksum o1 (fsa.files p1) =
      .ok (checksumString (o1.readBytes f1.data)) ∧
    (checksumString (o1.readBytes f1.data)).length = 64 ∧
    ∀ c ∈ (checksumString (o1.readBytes f1.data)).data,
      c ∈ "0123456789abcdef".data := by
  rw [h1, h2]
  exact ⟨by simp [compute_checksum, hb], rfl, checksumString_length _,
    checksumString_hex _⟩

/-- Witness for C7 amended: the same three bytes stored at pic.jpg and at
other/copy.png produce the same cache key. -/
theorem compute_checksum_key_content_determined_witness :
    compute_checksum tOracle (tFS.files "pic.jpg") =
      compute_checksum tOracle (tFS2.files "other/copy.png") :=
  (compute_checksum_key_content_determined tOracle tOracle tFS tFS2 "pic.jpg"
    "other/copy.png" tFile ⟨.bytes [1, 2, 3], 77⟩ rfl rfl rfl).1

/-- The embedded SHA-256 agrees with the standard test vector for the
three-byte message abc, pinning the checksum embedding to the sha2 crate
output. -/
lemma sha256_test_vector :
    checksumString [0x61, 0x62, 0x63] =
      "ba7816bf8f01cfea414140de5dae2223b00361a396177a9cb410ff61f20015ad" := by
  decide

end Cura
